import Mathlib

/-
Shallow embedding of `src/cholla_scaling/problem_props.py`: the scaling-case
data model (`ProblemCase`), the rule engine (`_next_case`), the case-sequence
generator (`build_cases`), and the input-artifact lookup
(`maketype_and_param_paths`).

Modelling conventions:
- Python floats are modelled as rationals; every float operation the code
  performs on them (multiplication by 2, comparison with 0) is exact in
  IEEE double precision for the values involved, so the rational model is
  faithful.
- Python ints are modelled as integers.
- Python exceptions are modelled with `Except PyError`; the `while True`
  generator loop is modelled with explicit fuel, since for degenerate inputs
  (a zero process-grid component) the real loop does not terminate.  The
  `Stop` marker records how the loop ended.
- The directory scan of `maketype_and_param_paths` takes the directory
  listing as an explicit argument.
-/

deriving instance DecidableEq for Except

namespace Cholla

/-- Python exceptions raised by the modelled code. -/
inductive PyError where
  | assertionError : PyError
  | attributeError : String → PyError
  | runtimeError : String → PyError
deriving DecidableEq

/-- `_prod(iterable, start=1)` from problem_props.py. -/
def _prod (l : List ℤ) : ℤ := l.foldl (fun out elem => out * elem) 1

/-- `ProblemCase` NamedTuple: one scaling instance. -/
structure ProblemCase where
  grid_left_xyz : ℚ × ℚ × ℚ
  grid_width_xyz : ℚ × ℚ × ℚ
  grid_shape_xyz : ℤ × ℤ × ℤ
  nproc_grid_xyz : ℤ × ℤ × ℤ
deriving DecidableEq

/-- `ProblemCase.total_proc`: product of the process-grid components. -/
def ProblemCase.total_proc (c : ProblemCase) : ℤ :=
  _prod [c.nproc_grid_xyz.1, c.nproc_grid_xyz.2.1, c.nproc_grid_xyz.2.2]

/-- `OriginLoc` enum. -/
inductive OriginLoc where
  | LEFT : OriginLoc
  | CENTER : OriginLoc
deriving DecidableEq

/-- `ScaleRule` enum. -/
inductive ScaleRule where
  | X_AXIS : ScaleRule
  | Z_AXIS : ScaleRule
  | XY_PLANE : ScaleRule
deriving DecidableEq

/-- The per-branch `generic_transform` closures of `_next_case`, for the two
branches the code can actually reach (`X_AXIS`, `Z_AXIS`).  The `XY_PLANE`
branch of `_next_case` never builds a transform: its `elif` guard evaluates
`ScaleRule.XY_AXIS`, an attribute the enum does not define.  The unreachable
`XY_PLANE` body is still transcribed as the source writes it
(`(triple[0]*2, triple[2]*2, triple[2])`). -/
def generic_transform {α : Type} [Mul α] [OfNat α 2] :
    ScaleRule → α × α × α → α × α × α
  | ScaleRule.X_AXIS, (a, b, c) => (a * 2, b, c)
  | ScaleRule.Z_AXIS, (a, b, c) => (a, b, c * 2)
  | ScaleRule.XY_PLANE, (a, _, c) => (a * 2, c * 2, c)

/-- `_next_case(case, origin_loc, scale_rule)`.  For `XY_PLANE` the Python
dispatch raises `AttributeError` while evaluating the guard
`scale_rule == ScaleRule.XY_AXIS` (no such enum member), before any transform
is applied.  Under `OriginLoc.LEFT` the code asserts that every component of
`grid_left_xyz` is zero. -/
def _next_case (case : ProblemCase) (origin_loc : OriginLoc)
    (scale_rule : ScaleRule) : Except PyError ProblemCase :=
  match scale_rule with
  | ScaleRule.XY_PLANE => Except.error (PyError.attributeError "XY_AXIS")
  | rule =>
    let grid_width := generic_transform rule case.grid_width_xyz
    let grid_shape := generic_transform rule case.grid_shape_xyz
    let nproc_grid := generic_transform rule case.nproc_grid_xyz
    match origin_loc with
    | OriginLoc.LEFT =>
      if case.grid_left_xyz.1 = 0 ∧ case.grid_left_xyz.2.1 = 0 ∧
          case.grid_left_xyz.2.2 = 0 then
        Except.ok ⟨case.grid_left_xyz, grid_width, grid_shape, nproc_grid⟩
      else
        Except.error PyError.assertionError
    | OriginLoc.CENTER =>
      Except.ok ⟨generic_transform rule case.grid_left_xyz, grid_width,
        grid_shape, nproc_grid⟩

/-- How a run of the generator loop ended: normal termination (a derived case
exceeded `max_proc`), an exception propagating out of `_next_case`, or the
modelling fuel running out (the real loop would still be running). -/
inductive Stop where
  | finished : Stop
  | raised : PyError → Stop
  | fuelOut : Stop
deriving DecidableEq

/-- The `while True` loop of `build_cases`: derive the next case; skip it and
continue when `total_proc < min_generated_proc`; stop (without yielding) when
`total_proc > max_proc`; otherwise yield it and continue. -/
def build_cases_loop (origin_loc : OriginLoc) (scale_rule : ScaleRule)
    (max_proc min_generated_proc : ℤ) :
    Nat → ProblemCase → List ProblemCase × Stop
  | 0, _ => ([], Stop.fuelOut)
  | fuel + 1, case =>
    match _next_case case origin_loc scale_rule with
    | Except.error e => ([], Stop.raised e)
    | Except.ok c =>
      let total_proc := c.total_proc
      if total_proc < min_generated_proc then
        build_cases_loop origin_loc scale_rule max_proc min_generated_proc
          fuel c
      else if total_proc > max_proc then
        ([], Stop.finished)
      else
        let rest := build_cases_loop origin_loc scale_rule max_proc
          min_generated_proc fuel c
        (c :: rest.1, rest.2)

/-- `build_cases(...)`: checks the three asserts (a generator runs them before
its first yield), then yields the base case when requested and iterates the
loop.  The returned list is the sequence of yielded cases. -/
def build_cases (base_case : ProblemCase) (origin_loc : OriginLoc)
    (scale_rule : ScaleRule) (max_proc : ℤ) (min_generated_proc : ℤ)
    (include_base_case : Bool) (fuel : Nat) :
    Except PyError (List ProblemCase × Stop) :=
  if 1 ≤ max_proc then
    if 0 ≤ min_generated_proc ∧ min_generated_proc ≤ max_proc then
      if base_case.total_proc ≤ max_proc then
        let rest := build_cases_loop origin_loc scale_rule max_proc
          min_generated_proc fuel base_case
        Except.ok ((if include_base_case then [base_case] else []) ++ rest.1,
          rest.2)
      else Except.error PyError.assertionError
    else Except.error PyError.assertionError
  else Except.error PyError.assertionError

/-- The base case of the spec's concrete scenario (§8): grid_left (0,0,0),
grid_width (2,2,2), grid_shape (350,350,350), process grid (1,1,1). -/
def demo_base : ProblemCase :=
  ⟨(0, 0, 0), (2, 2, 2), (350, 350, 350), (1, 1, 1)⟩

/-- The case derived from `demo_base` by one `X_AXIS` step. -/
def demo_step1 : ProblemCase :=
  ⟨(0, 0, 0), (4, 2, 2), (700, 350, 350), (2, 1, 1)⟩

/-- The case derived from `demo_base` by two `X_AXIS` steps. -/
def demo_step2 : ProblemCase :=
  ⟨(0, 0, 0), (8, 2, 2), (1400, 350, 350), (4, 1, 1)⟩

/-- The case derived from `demo_base` by three `X_AXIS` steps (total process
count 8, beyond the demo ceiling of 4). -/
def demo_step3 : ProblemCase :=
  ⟨(0, 0, 0), (16, 2, 2), (2800, 350, 350), (8, 1, 1)⟩

/-- A case whose grid_left has a nonzero component. -/
def demo_offset : ProblemCase :=
  ⟨(1, 0, 0), (2, 2, 2), (350, 350, 350), (1, 1, 1)⟩

/-- The `make.type.` filename marker (`_MAKETYPE_PREFIX` in the source; the
Lean name differs because of naming constraints of this development). -/
def _MAKETYPE_STR : String := "make.type."

/-- One `os.scandir` entry: its name, its full path, and whether it is a
regular file.  The directory listing is passed to
`maketype_and_param_paths` explicitly. -/
structure DirEntry where
  name : String
  path : String
  isFile : Bool
deriving DecidableEq

/-- Python's `str.startswith`: the second string is a character-sequence
initial segment of the first. -/
def _starts_with (s p : String) : Bool := p.data.isPrefixOf s.data

/-- The scan loop of `maketype_and_param_paths`, over the file entries in
scandir order: count entries, break as soon as the count reaches 3, classify
each earlier entry by whether its name starts with `make.type.`. -/
def scan_loop : List DirEntry → Nat → Option String → Option String →
    Nat × Option String × Option String
  | [], count, maketype_path, param_path => (count, maketype_path, param_path)
  | entry :: rest, count, maketype_path, param_path =>
    if count + 1 = 3 then (count + 1, maketype_path, param_path)
    else if _starts_with entry.name _MAKETYPE_STR then
      scan_loop rest (count + 1) (some entry.path) param_path
    else
      scan_loop rest (count + 1) maketype_path (some entry.path)

/-- The checks `maketype_and_param_paths` runs after its scan loop. -/
def _paths_of_files (files : List DirEntry) :
    Except PyError (String × String) :=
  let r := scan_loop files 0 none none
  if r.1 ≠ 2 then
    Except.error (PyError.runtimeError "expected exactly 2 files")
  else
    match r.2.1 with
    | none =>
      Except.error (PyError.runtimeError "no file looks like a make.type. file")
    | some maketype_path =>
      match r.2.2 with
      | none =>
        Except.error
          (PyError.runtimeError "all files look like a make.type. file")
      | some param_path => Except.ok (maketype_path, param_path)

/-- `ProblemProps.maketype_and_param_paths`, with the directory listing as an
explicit argument: keep the regular files, run the scan loop, then check that
exactly two files were seen, exactly one of them a `make.type.` file. -/
def maketype_and_param_paths (entries : List DirEntry) :
    Except PyError (String × String) :=
  _paths_of_files (entries.filter (fun entry => entry.isFile))

/-- A demo directory listing with one `make.type.` file and one parameter
file. -/
def demo_entries : List DirEntry :=
  [⟨"make.type.hydro", "/inputs/sound/make.type.hydro", true⟩,
   ⟨"params.txt", "/inputs/sound/params.txt", true⟩]

/-- When `_next_case` succeeds, the rule was not `XY_PLANE` and all three
generic fields are the `generic_transform` image of the input's fields. -/
theorem _next_case_ok_fields {c c' : ProblemCase} {o : OriginLoc}
    {r : ScaleRule} (h : _next_case c o r = Except.ok c') :
    r ≠ ScaleRule.XY_PLANE ∧
    c'.grid_width_xyz = generic_transform r c.grid_width_xyz ∧
    c'.grid_shape_xyz = generic_transform r c.grid_shape_xyz ∧
    c'.nproc_grid_xyz = generic_transform r c.nproc_grid_xyz := by
  cases r <;> cases o <;> simp only [_next_case] at h
  case X_AXIS.LEFT =>
    split at h
    · injection h with h
      subst h
      exact ⟨by simp, rfl, rfl, rfl⟩
    · cases h
  case X_AXIS.CENTER =>
    injection h with h
    subst h
    exact ⟨by simp, rfl, rfl, rfl⟩
  case Z_AXIS.LEFT =>
    split at h
    · injection h with h
      subst h
      exact ⟨by simp, rfl, rfl, rfl⟩
    · cases h
  case Z_AXIS.CENTER =>
    injection h with h
    subst h
    exact ⟨by simp, rfl, rfl, rfl⟩
  case XY_PLANE.LEFT => cases h
  case XY_PLANE.CENTER => cases h

/-- The product of a transformed integer triple is twice the original product
(both reachable rules double exactly one axis). -/
theorem _prod_generic_transform (r : ScaleRule) (hr : r ≠ ScaleRule.XY_PLANE)
    (t : ℤ × ℤ × ℤ) :
    _prod [(generic_transform r t).1, (generic_transform r t).2.1,
      (generic_transform r t).2.2] = 2 * _prod [t.1, t.2.1, t.2.2] := by
  obtain ⟨a, b, c⟩ := t
  cases r with
  | XY_PLANE => exact absurd rfl hr
  | X_AXIS => simp [generic_transform, _prod]; ring
  | Z_AXIS => simp [generic_transform, _prod]; ring

/-- Every successful transition exactly doubles the total process count. -/
theorem total_proc_next {c c' : ProblemCase} {o : OriginLoc} {r : ScaleRule}
    (h : _next_case c o r = Except.ok c') :
    c'.total_proc = 2 * c.total_proc := by
  obtain ⟨hr, -, -, hn⟩ := _next_case_ok_fields h
  rw [ProblemCase.total_proc, ProblemCase.total_proc, hn]
  exact _prod_generic_transform r hr c.nproc_grid_xyz

/-- Invariant of the generator loop: every yielded case has a strictly larger
total process count than the case the loop started from, respects the
`max_proc` ceiling, and the yields come in strictly increasing order. -/
theorem build_cases_loop_invariant (o : OriginLoc) (r : ScaleRule)
    (mx mn : ℤ) :
    ∀ (fuel : Nat) (cur : ProblemCase), 0 < cur.total_proc →
      (∀ x ∈ (build_cases_loop o r mx mn fuel cur).1,
        cur.total_proc < x.total_proc ∧ x.total_proc ≤ mx) ∧
      List.Pairwise (fun a b : ProblemCase => a.total_proc < b.total_proc)
        (build_cases_loop o r mx mn fuel cur).1 := by
  intro fuel
  induction fuel with
  | zero => intro cur _; simp [build_cases_loop]
  | succ n ih =>
    intro cur hpos
    cases hnc : _next_case cur o r with
    | error e => simp [build_cases_loop, hnc]
    | ok c =>
      have hdouble := total_proc_next hnc
      have hlt : cur.total_proc < c.total_proc := by omega
      have hcpos : 0 < c.total_proc := by omega
      by_cases h1 : c.total_proc < mn
      · obtain ⟨hmem, hpw⟩ := ih c hcpos
        simp only [build_cases_loop, hnc, h1, if_true]
        exact ⟨fun x hx => ⟨lt_trans hlt (hmem x hx).1, (hmem x hx).2⟩, hpw⟩
      · by_cases h2 : c.total_proc > mx
        · simp [build_cases_loop, hnc, h1, h2]
        · simp only [build_cases_loop, hnc, h1, h2, if_false]
          obtain ⟨hmem, hpw⟩ := ih c hcpos
          refine ⟨?_, ?_⟩
          · intro x hx
            rcases List.mem_cons.mp hx with hx' | hx'
            · subst hx'
              exact ⟨hlt, by omega⟩
            · exact ⟨lt_trans hlt (hmem x hx').1, (hmem x hx').2⟩
          · exact List.Pairwise.cons (fun y hy => (hmem y hy).1) hpw

/-- When all three asserts pass, `build_cases` returns the optional base case
followed by the loop's yields. -/
theorem build_cases_ok {base : ProblemCase} {o : OriginLoc} {r : ScaleRule}
    {mx mn : ℤ} (ib : Bool) (fuel : Nat) (hmx : 1 ≤ mx) (hmn0 : 0 ≤ mn)
    (hmn1 : mn ≤ mx) (hb : base.total_proc ≤ mx) :
    build_cases base o r mx mn ib fuel =
      Except.ok
        ((if ib then [base] else []) ++
          (build_cases_loop o r mx mn fuel base).1,
        (build_cases_loop o r mx mn fuel base).2) := by
  simp [build_cases, hmx, hmn0, hmn1, hb]

/-- When any of the three asserts fails, `build_cases` raises
`AssertionError` before yielding anything. -/
theorem build_cases_assert_fail {base : ProblemCase} {o : OriginLoc}
    {r : ScaleRule} {mx mn : ℤ} (ib : Bool) (fuel : Nat)
    (h : ¬(1 ≤ mx ∧ 0 ≤ mn ∧ mn ≤ mx ∧ base.total_proc ≤ mx)) :
    build_cases base o r mx mn ib fuel =
      Except.error PyError.assertionError := by
  by_cases h1 : 1 ≤ mx
  · by_cases h2 : 0 ≤ mn ∧ mn ≤ mx
    · by_cases h3 : base.total_proc ≤ mx
      · exact absurd ⟨h1, h2.1, h2.2, h3⟩ h
      · simp [build_cases, h1, h2, h3]
    · simp [build_cases, h1, h2]
  · simp [build_cases, h1]

/-- The concrete demo run of the spec's §8 scenario. -/
theorem demo_run :
    build_cases demo_base OriginLoc.LEFT ScaleRule.X_AXIS 4 1 true 100 =
      Except.ok ([demo_base, demo_step1, demo_step2], Stop.finished) := by
  set_option maxRecDepth 4000 in
  norm_num [build_cases, build_cases_loop, _next_case, generic_transform,
    ProblemCase.total_proc, _prod, demo_base, demo_step1, demo_step2]

/-- Characterization of the post-scan checks: they succeed exactly on a
two-element file list with exactly one `make.type.` name, and then return the
`make.type.` path first. -/
theorem _paths_of_files_spec (files : List DirEntry) :
    ((∃ mp, _paths_of_files files = Except.ok mp) ↔
      files.length = 2 ∧
      files.countP (fun e => _starts_with e.name _MAKETYPE_STR) = 1) ∧
    (∀ a b, files = [a, b] →
      (_starts_with a.name _MAKETYPE_STR = true →
        _starts_with b.name _MAKETYPE_STR = false →
        _paths_of_files files = Except.ok (a.path, b.path)) ∧
      (_starts_with a.name _MAKETYPE_STR = false →
        _starts_with b.name _MAKETYPE_STR = true →
        _paths_of_files files = Except.ok (b.path, a.path))) := by
  rcases files with - | ⟨a, - | ⟨b, - | ⟨c, rest⟩⟩⟩
  · constructor
    · simp [_paths_of_files, scan_loop]
    · intro x y h
      simp at h
  · constructor
    · cases ha : _starts_with a.name _MAKETYPE_STR <;>
        simp [_paths_of_files, scan_loop, ha]
    · intro x y h
      simp at h
  · refine ⟨?_, ?_⟩
    · cases ha : _starts_with a.name _MAKETYPE_STR <;>
        cases hb : _starts_with b.name _MAKETYPE_STR <;>
        simp [_paths_of_files, scan_loop, ha, hb, List.countP_cons,
          List.countP_nil]
    · intro x y h
      simp only [List.cons.injEq, and_true] at h
      obtain ⟨rfl, rfl⟩ := h
      constructor
      · intro hx hy
        simp [_paths_of_files, scan_loop, hx, hy]
      · intro hx hy
        simp [_paths_of_files, scan_loop, hx, hy]
  · constructor
    · cases ha : _starts_with a.name _MAKETYPE_STR <;>
        cases hb : _starts_with b.name _MAKETYPE_STR <;>
        simp [_paths_of_files, scan_loop, ha, hb]
    · intro x y h
      simp at h

/-- C1: the claim says the `XY_PLANE` (GrowPlaneAB) rule doubles axes 0 and 1
of `grid_width`, `grid_shape` and `nproc_grid` and keeps axis 2.  The code
instead raises `AttributeError` for the `XY_PLANE` rule under either origin
policy: its dispatch references the undefined enum member
`ScaleRule.XY_AXIS` (problem_props.py line 89), so no case is ever returned
for this rule. -/
theorem c1_xy_plane_raises :
    _next_case demo_base OriginLoc.LEFT ScaleRule.XY_PLANE =
      Except.error (PyError.attributeError "XY_AXIS") ∧
    _next_case demo_base OriginLoc.CENTER ScaleRule.XY_PLANE =
      Except.error (PyError.attributeError "XY_AXIS") :=
  ⟨rfl, rfl⟩

/-- C2: the loop stops, yielding nothing further, exactly when the newly
derived case's `total_proc` exceeds `max_proc` (given
`min_generated_proc ≤ max_proc`); and the spec's concrete scenario yields
exactly the base case, the (2,1,1) case and the (4,1,1) case — the case with
`total_proc = 4 = max_proc` is included, the (8,1,1) case is not. -/
theorem c2_stop_boundary :
    (∀ (o : OriginLoc) (r : ScaleRule) (mx mn : ℤ) (cur c : ProblemCase)
      (fuel : Nat), mn ≤ mx → _next_case cur o r = Except.ok c →
      mx < c.total_proc →
      build_cases_loop o r mx mn (fuel + 1) cur = ([], Stop.finished)) ∧
    build_cases demo_base OriginLoc.LEFT ScaleRule.X_AXIS 4 1 true 100 =
      Except.ok ([demo_base, demo_step1, demo_step2], Stop.finished) := by
  refine ⟨?_, demo_run⟩
  intro o r mx mn cur c fuel hmn hnc hgt
  have h1 : ¬(c.total_proc < mn) := by omega
  have h2 : c.total_proc > mx := hgt
  simp [build_cases_loop, hnc, h1, h2]

/-- Witness for C2: the stop step of the demo scenario, at the case whose
total process count 8 exceeds the ceiling 4. -/
theorem c2_stop_boundary_witness :
    build_cases_loop OriginLoc.LEFT ScaleRule.X_AXIS 4 1 (2 + 1) demo_step2 =
      ([], Stop.finished) :=
  c2_stop_boundary.1 OriginLoc.LEFT ScaleRule.X_AXIS 4 1 demo_step2
    demo_step3 2 (by norm_num)
    (by norm_num [_next_case, generic_transform, demo_step2, demo_step3])
    (by norm_num [ProblemCase.total_proc, _prod, demo_step3])

/-- C3: for a base case with positive total process count (the data model
requires positive process-grid components), every case the generator yields
respects the `max_proc` ceiling, and the yielded total process counts are
strictly increasing. -/
theorem c3_ceiling_monotone (base : ProblemCase) (o : OriginLoc)
    (r : ScaleRule) (mx mn : ℤ) (ib : Bool) (fuel : Nat)
    (l : List ProblemCase) (s : Stop) (hpos : 0 < base.total_proc)
    (h : build_cases base o r mx mn ib fuel = Except.ok (l, s)) :
    (∀ x ∈ l, x.total_proc ≤ mx) ∧
    List.Pairwise (fun a b : ProblemCase => a.total_proc < b.total_proc) l := by
  by_cases h1 : 1 ≤ mx
  · by_cases h2 : 0 ≤ mn ∧ mn ≤ mx
    · by_cases h3 : base.total_proc ≤ mx
      · rw [build_cases_ok ib fuel h1 h2.1 h2.2 h3] at h
        injection h with h
        injection h with hl hs
        obtain ⟨hmem, hpw⟩ := build_cases_loop_invariant o r mx mn fuel base
          hpos
        subst hl
        cases ib with
        | false =>
          have hl2 : (if (false : Bool) then [base] else []) ++
              (build_cases_loop o r mx mn fuel base).1 =
              (build_cases_loop o r mx mn fuel base).1 := by simp
          rw [hl2]
          exact ⟨fun x hx => (hmem x hx).2, hpw⟩
        | true =>
          have hl2 : (if (true : Bool) then [base] else []) ++
              (build_cases_loop o r mx mn fuel base).1 =
              base :: (build_cases_loop o r mx mn fuel base).1 := by simp
          rw [hl2]
          refine ⟨?_, ?_⟩
          · intro x hx
            rcases List.mem_cons.mp hx with hx' | hx'
            · subst hx'; exact h3
            · exact (hmem x hx').2
          · exact List.Pairwise.cons (fun y hy => (hmem y hy).1) hpw
      · rw [build_cases_assert_fail ib fuel (by tauto)] at h
        cases h
    · rw [build_cases_assert_fail ib fuel (by tauto)] at h
      cases h
  · rw [build_cases_assert_fail ib fuel (by tauto)] at h
    cases h

/-- Witness for C3: the demo scenario's yields are all within the ceiling 4
and strictly increasing. -/
theorem c3_ceiling_monotone_witness :
    (∀ x ∈ [demo_base, demo_step1, demo_step2], x.total_proc ≤ 4) ∧
    List.Pairwise (fun a b : ProblemCase => a.total_proc < b.total_proc)
      [demo_base, demo_step1, demo_step2] :=
  c3_ceiling_monotone demo_base OriginLoc.LEFT ScaleRule.X_AXIS 4 1 true 100
    [demo_base, demo_step1, demo_step2] Stop.finished
    (by norm_num [ProblemCase.total_proc, _prod, demo_base]) demo_run

/-- C4 counterexample: the claim quantifies over every scale rule, but under
the `XY_PLANE` rule `_next_case` with the LEFT policy raises
`AttributeError` even though every component of `grid_left_xyz` is zero —
it neither succeeds nor fails with the precondition (assertion) violation
the claim describes. -/
theorem c4_counterexample :
    demo_base.grid_left_xyz = (0, 0, 0) ∧
    ¬∃ c', _next_case demo_base OriginLoc.LEFT ScaleRule.XY_PLANE =
      Except.ok c' := by
  refine ⟨rfl, ?_⟩
  rintro ⟨c', hc⟩
  simp [_next_case] at hc

/-- C4 as amended: for the two rules whose dispatch succeeds (`X_AXIS`,
`Z_AXIS`), `_next_case` under the LEFT policy fails with an assertion
(precondition) violation iff some component of `grid_left_xyz` is nonzero,
and when all components are zero it returns a case whose `grid_left_xyz` is
the input's, unchanged. -/
theorem c4_left_policy (c : ProblemCase) (r : ScaleRule)
    (hr : r ≠ ScaleRule.XY_PLANE) :
    ((_next_case c OriginLoc.LEFT r = Except.error PyError.assertionError) ↔
      ¬(c.grid_left_xyz.1 = 0 ∧ c.grid_left_xyz.2.1 = 0 ∧
        c.grid_left_xyz.2.2 = 0)) ∧
    ((c.grid_left_xyz.1 = 0 ∧ c.grid_left_xyz.2.1 = 0 ∧
        c.grid_left_xyz.2.2 = 0) →
      ∃ c', _next_case c OriginLoc.LEFT r = Except.ok c' ∧
        c'.grid_left_xyz = c.grid_left_xyz) := by
  cases r with
  | XY_PLANE => exact absurd rfl hr
  | X_AXIS =>
    by_cases hz : c.grid_left_xyz.1 = 0 ∧ c.grid_left_xyz.2.1 = 0 ∧
      c.grid_left_xyz.2.2 = 0
    · refine ⟨by simp [_next_case, hz],
        fun _ => ⟨⟨c.grid_left_xyz,
          generic_transform ScaleRule.X_AXIS c.grid_width_xyz,
          generic_transform ScaleRule.X_AXIS c.grid_shape_xyz,
          generic_transform ScaleRule.X_AXIS c.nproc_grid_xyz⟩, ?_, rfl⟩⟩
      simp [_next_case, hz]
    · refine ⟨?_, fun h => absurd h hz⟩
      simp [_next_case, hz]
  | Z_AXIS =>
    by_cases hz : c.grid_left_xyz.1 = 0 ∧ c.grid_left_xyz.2.1 = 0 ∧
      c.grid_left_xyz.2.2 = 0
    · refine ⟨by simp [_next_case, hz],
        fun _ => ⟨⟨c.grid_left_xyz,
          generic_transform ScaleRule.Z_AXIS c.grid_width_xyz,
          generic_transform ScaleRule.Z_AXIS c.grid_shape_xyz,
          generic_transform ScaleRule.Z_AXIS c.nproc_grid_xyz⟩, ?_, rfl⟩⟩
      simp [_next_case, hz]
    · refine ⟨?_, fun h => absurd h hz⟩
      simp [_next_case, hz]

/-- Witness for the amended C4: a case with `grid_left_xyz = (1,0,0)` makes
`_next_case` under LEFT fail the assertion. -/
theorem c4_left_policy_witness :
    _next_case demo_offset OriginLoc.LEFT ScaleRule.X_AXIS =
      Except.error PyError.assertionError :=
  (c4_left_policy demo_offset ScaleRule.X_AXIS (by decide)).1.mpr
    (by norm_num [demo_offset])

/-- C5: whenever `_next_case` returns a case, one per-axis multiplier triple
is applied to `grid_width`, `grid_shape` and `nproc_grid` alike, and hence
the per-partition workload `grid_shape[i] / nproc_grid[i]` is preserved on
every axis (stated multiplicatively). -/
theorem c5_coscaling (c : ProblemCase) (o : OriginLoc) (r : ScaleRule)
    (c' : ProblemCase) (h : _next_case c o r = Except.ok c') :
    (∃ m0 m1 m2 : ℤ,
      c'.grid_width_xyz = (c.grid_width_xyz.1 * (m0 : ℚ),
        c.grid_width_xyz.2.1 * (m1 : ℚ), c.grid_width_xyz.2.2 * (m2 : ℚ)) ∧
      c'.grid_shape_xyz = (c.grid_shape_xyz.1 * m0, c.grid_shape_xyz.2.1 * m1,
        c.grid_shape_xyz.2.2 * m2) ∧
      c'.nproc_grid_xyz = (c.nproc_grid_xyz.1 * m0, c.nproc_grid_xyz.2.1 * m1,
        c.nproc_grid_xyz.2.2 * m2)) ∧
    (c'.grid_shape_xyz.1 * c.nproc_grid_xyz.1 =
        c.grid_shape_xyz.1 * c'.nproc_grid_xyz.1 ∧
      c'.grid_shape_xyz.2.1 * c.nproc_grid_xyz.2.1 =
        c.grid_shape_xyz.2.1 * c'.nproc_grid_xyz.2.1 ∧
      c'.grid_shape_xyz.2.2 * c.nproc_grid_xyz.2.2 =
        c.grid_shape_xyz.2.2 * c'.nproc_grid_xyz.2.2) := by
  obtain ⟨⟨l1, l2, l3⟩, ⟨w1, w2, w3⟩, ⟨s1, s2, s3⟩, ⟨n1, n2, n3⟩⟩ := c
  obtain ⟨hr, hw, hs, hn⟩ := _next_case_ok_fields h
  cases r with
  | XY_PLANE => exact absurd rfl hr
  | X_AXIS =>
    have hw' : c'.grid_width_xyz = (w1 * 2, w2, w3) := by
      simpa [generic_transform] using hw
    have hs' : c'.grid_shape_xyz = (s1 * 2, s2, s3) := by
      simpa [generic_transform] using hs
    have hn' : c'.nproc_grid_xyz = (n1 * 2, n2, n3) := by
      simpa [generic_transform] using hn
    refine ⟨⟨2, 1, 1, ?_, ?_, ?_⟩, ?_, ?_, ?_⟩
    · rw [hw']; norm_num
    · rw [hs']; norm_num
    · rw [hn']; norm_num
    · simp [hs', hn']; ring
    · simp [hs', hn']
    · simp [hs', hn']
  | Z_AXIS =>
    have hw' : c'.grid_width_xyz = (w1, w2, w3 * 2) := by
      simpa [generic_transform] using hw
    have hs' : c'.grid_shape_xyz = (s1, s2, s3 * 2) := by
      simpa [generic_transform] using hs
    have hn' : c'.nproc_grid_xyz = (n1, n2, n3 * 2) := by
      simpa [generic_transform] using hn
    refine ⟨⟨1, 1, 2, ?_, ?_, ?_⟩, ?_, ?_, ?_⟩
    · rw [hw']; norm_num
    · rw [hs']; norm_num
    · rw [hn']; norm_num
    · simp [hs', hn']
    · simp [hs', hn']
    · simp [hs', hn']; ring

/-- Witness for C5: the multiplier pattern and workload preservation at the
demo base case's first `X_AXIS` step. -/
theorem c5_coscaling_witness :
    (∃ m0 m1 m2 : ℤ,
      demo_step1.grid_width_xyz = (demo_base.grid_width_xyz.1 * (m0 : ℚ),
        demo_base.grid_width_xyz.2.1 * (m1 : ℚ),
        demo_base.grid_width_xyz.2.2 * (m2 : ℚ)) ∧
      demo_step1.grid_shape_xyz = (demo_base.grid_shape_xyz.1 * m0,
        demo_base.grid_shape_xyz.2.1 * m1,
        demo_base.grid_shape_xyz.2.2 * m2) ∧
      demo_step1.nproc_grid_xyz = (demo_base.nproc_grid_xyz.1 * m0,
        demo_base.nproc_grid_xyz.2.1 * m1,
        demo_base.nproc_grid_xyz.2.2 * m2)) ∧
    (demo_step1.grid_shape_xyz.1 * demo_base.nproc_grid_xyz.1 =
        demo_base.grid_shape_xyz.1 * demo_step1.nproc_grid_xyz.1 ∧
      demo_step1.grid_shape_xyz.2.1 * demo_base.nproc_grid_xyz.2.1 =
        demo_base.grid_shape_xyz.2.1 * demo_step1.nproc_grid_xyz.2.1 ∧
      demo_step1.grid_shape_xyz.2.2 * demo_base.nproc_grid_xyz.2.2 =
        demo_base.grid_shape_xyz.2.2 * demo_step1.nproc_grid_xyz.2.2) :=
  c5_coscaling demo_base OriginLoc.LEFT ScaleRule.X_AXIS demo_step1
    (by norm_num [_next_case, generic_transform, demo_base, demo_step1])

/-- C6: two `X_AXIS` (GrowAxisA) steps — allowed for any case under CENTER,
and for a case with zero `grid_left_xyz` under LEFT — quadruple axis 0 of
`grid_width`, `grid_shape` and `nproc_grid` and leave axes 1 and 2 of those
fields unchanged. -/
theorem c6_double_advance (c : ProblemCase) (o : OriginLoc)
    (h : o = OriginLoc.LEFT → c.grid_left_xyz = (0, 0, 0)) :
    ∃ c1 c2, _next_case c o ScaleRule.X_AXIS = Except.ok c1 ∧
      _next_case c1 o ScaleRule.X_AXIS = Except.ok c2 ∧
      c2.grid_width_xyz.1 = c.grid_width_xyz.1 * 4 ∧
      c2.grid_width_xyz.2 = c.grid_width_xyz.2 ∧
      c2.grid_shape_xyz.1 = c.grid_shape_xyz.1 * 4 ∧
      c2.grid_shape_xyz.2 = c.grid_shape_xyz.2 ∧
      c2.nproc_grid_xyz.1 = c.nproc_grid_xyz.1 * 4 ∧
      c2.nproc_grid_xyz.2 = c.nproc_grid_xyz.2 := by
  obtain ⟨⟨l1, l2, l3⟩, ⟨w1, w2, w3⟩, ⟨s1, s2, s3⟩, ⟨n1, n2, n3⟩⟩ := c
  cases o with
  | LEFT =>
    have hz := h rfl
    simp only [Prod.mk.injEq] at hz
    obtain ⟨rfl, rfl, rfl⟩ := hz
    refine ⟨⟨(0, 0, 0), (w1 * 2, w2, w3), (s1 * 2, s2, s3),
      (n1 * 2, n2, n3)⟩,
      ⟨(0, 0, 0), (w1 * 2 * 2, w2, w3), (s1 * 2 * 2, s2, s3),
      (n1 * 2 * 2, n2, n3)⟩, ?_, ?_, by ring, rfl, by ring, rfl, by ring,
      rfl⟩ <;>
      simp [_next_case, generic_transform]
  | CENTER =>
    refine ⟨⟨(l1 * 2, l2, l3), (w1 * 2, w2, w3), (s1 * 2, s2, s3),
      (n1 * 2, n2, n3)⟩,
      ⟨(l1 * 2 * 2, l2, l3), (w1 * 2 * 2, w2, w3), (s1 * 2 * 2, s2, s3),
      (n1 * 2 * 2, n2, n3)⟩, ?_, ?_, by ring, rfl, by ring, rfl, by ring,
      rfl⟩ <;>
      simp [_next_case, generic_transform]

/-- Witness for C6: the quadrupling, at the demo base case under LEFT. -/
theorem c6_double_advance_witness :
    ∃ c1 c2, _next_case demo_base OriginLoc.LEFT ScaleRule.X_AXIS =
      Except.ok c1 ∧
      _next_case c1 OriginLoc.LEFT ScaleRule.X_AXIS = Except.ok c2 ∧
      c2.grid_width_xyz.1 = demo_base.grid_width_xyz.1 * 4 ∧
      c2.grid_width_xyz.2 = demo_base.grid_width_xyz.2 ∧
      c2.grid_shape_xyz.1 = demo_base.grid_shape_xyz.1 * 4 ∧
      c2.grid_shape_xyz.2 = demo_base.grid_shape_xyz.2 ∧
      c2.nproc_grid_xyz.1 = demo_base.nproc_grid_xyz.1 * 4 ∧
      c2.nproc_grid_xyz.2 = demo_base.nproc_grid_xyz.2 :=
  c6_double_advance demo_base OriginLoc.LEFT (fun _ => rfl)

/-- C7: a derived case below the `min_generated_proc` floor is skipped while
iteration continues from it; and with `include_base_case` the base case is
always the first yield once the asserts pass, with no condition relating its
total process count to the floor. -/
theorem c7_skip_and_base :
    (∀ (o : OriginLoc) (r : ScaleRule) (mx mn : ℤ) (fuel : Nat)
      (cur c : ProblemCase), _next_case cur o r = Except.ok c →
      c.total_proc < mn →
      build_cases_loop o r mx mn (fuel + 1) cur =
        build_cases_loop o r mx mn fuel c) ∧
    (∀ (base : ProblemCase) (o : OriginLoc) (r : ScaleRule) (mx mn : ℤ)
      (fuel : Nat), 1 ≤ mx → 0 ≤ mn → mn ≤ mx → base.total_proc ≤ mx →
      ∃ rest s, build_cases base o r mx mn true fuel =
        Except.ok (base :: rest, s)) := by
  constructor
  · intro o r mx mn fuel cur c hnc hlt
    simp [build_cases_loop, hnc, hlt]
  · intro base o r mx mn fuel h1 h2 h3 h4
    rw [build_cases_ok true fuel h1 h2 h3 h4]
    exact ⟨(build_cases_loop o r mx mn fuel base).1,
      (build_cases_loop o r mx mn fuel base).2, by simp⟩

/-- Witness for C7: with floor 4 the derived (2,1,1) case is skipped and the
loop resumes from it; and the base case, whose total 1 is below the floor 4,
is still yielded first. -/
theorem c7_skip_and_base_witness :
    build_cases_loop OriginLoc.LEFT ScaleRule.X_AXIS 4 4 (5 + 1) demo_base =
      build_cases_loop OriginLoc.LEFT ScaleRule.X_AXIS 4 4 5 demo_step1 ∧
    ∃ rest s, build_cases demo_base OriginLoc.LEFT ScaleRule.X_AXIS 4 4 true
      100 = Except.ok (demo_base :: rest, s) :=
  ⟨c7_skip_and_base.1 OriginLoc.LEFT ScaleRule.X_AXIS 4 4 5 demo_base
      demo_step1
      (by norm_num [_next_case, generic_transform, demo_base, demo_step1])
      (by norm_num [ProblemCase.total_proc, _prod, demo_step1]),
    c7_skip_and_base.2 demo_base OriginLoc.LEFT ScaleRule.X_AXIS 4 4 100
      (by norm_num) (by norm_num) (by norm_num)
      (by norm_num [ProblemCase.total_proc, _prod, demo_base])⟩

/-- C8: `build_cases` raises `AssertionError` before yielding anything iff
one of `max_proc ≥ 1`, `0 ≤ min_generated_proc ≤ max_proc`,
`base.total_proc ≤ max_proc` fails; under the three preconditions no
assertion of `build_cases` fires and it returns a sequence. -/
theorem c8_preconditions (base : ProblemCase) (o : OriginLoc) (r : ScaleRule)
    (mx mn : ℤ) (ib : Bool) (fuel : Nat) :
    (¬(1 ≤ mx ∧ 0 ≤ mn ∧ mn ≤ mx ∧ base.total_proc ≤ mx) →
      build_cases base o r mx mn ib fuel =
        Except.error PyError.assertionError) ∧
    ((1 ≤ mx ∧ 0 ≤ mn ∧ mn ≤ mx ∧ base.total_proc ≤ mx) →
      ∃ p, build_cases base o r mx mn ib fuel = Except.ok p) :=
  ⟨build_cases_assert_fail ib fuel,
    fun h => ⟨_, build_cases_ok ib fuel h.1 h.2.1 h.2.2.1 h.2.2.2⟩⟩

/-- Witness for C8: a ceiling of 0 violates `max_proc ≥ 1` and makes
`build_cases` raise the assertion. -/
theorem c8_preconditions_witness :
    build_cases demo_base OriginLoc.LEFT ScaleRule.X_AXIS 0 0 true 5 =
      Except.error PyError.assertionError :=
  (c8_preconditions demo_base OriginLoc.LEFT ScaleRule.X_AXIS 0 0 true 5).1
    (fun h => absurd h.1 (by norm_num))

/-- C10: `maketype_and_param_paths` succeeds iff the listing holds exactly
two regular files of which exactly one has a `make.type.` name; on success
the `make.type.` path comes first; in all other cases (count not two, none
marked, both marked) it raises. -/
theorem c10_maketype_param_lookup (entries : List DirEntry) :
    ((∃ mp, maketype_and_param_paths entries = Except.ok mp) ↔
      (entries.filter (fun e => e.isFile)).length = 2 ∧
      (entries.filter (fun e => e.isFile)).countP
        (fun e => _starts_with e.name _MAKETYPE_STR) = 1) ∧
    (∀ a b, entries.filter (fun e => e.isFile) = [a, b] →
      (_starts_with a.name _MAKETYPE_STR = true →
        _starts_with b.name _MAKETYPE_STR = false →
        maketype_and_param_paths entries = Except.ok (a.path, b.path)) ∧
      (_starts_with a.name _MAKETYPE_STR = false →
        _starts_with b.name _MAKETYPE_STR = true →
        maketype_and_param_paths entries = Except.ok (b.path, a.path))) :=
  _paths_of_files_spec (entries.filter (fun e => e.isFile))

/-- Witness for C10: the demo listing resolves to the `make.type.` path first
and the parameter path second. -/
theorem c10_maketype_param_lookup_witness :
    maketype_and_param_paths demo_entries =
      Except.ok ("/inputs/sound/make.type.hydro",
        "/inputs/sound/params.txt") :=
  ((c10_maketype_param_lookup demo_entries).2
    ⟨"make.type.hydro", "/inputs/sound/make.type.hydro", true⟩
    ⟨"params.txt", "/inputs/sound/params.txt", true⟩ (by decide)).1
    (by decide) (by decide)

end Cholla
